import Mathlib

/-!
Verification of the XKCD comic service (Express app: `src/services/xkcdService.js`,
`src/routes/...` and `src/middleware/errorHandler.js`) against its natural-language
specification.

The JavaScript service is embedded shallowly:

* JavaScript numbers that can be `NaN` are modelled by `JsNum` (`nan` or a rational);
  the rationals that actually appear in the verified runs are integers or have a short
  finite decimal expansion, so no floating-point rounding is involved.
* The process-local `Map` cache is modelled as an insertion-ordered association list.
* `fetch` is modelled by an oracle `Fetch : String → FetchOutcome` mapping a URL to
  either an HTTP response (status, statusText, decoded JSON body) or a network-level
  rejection.  `response.ok` is `200 ≤ status < 300`, as in node-fetch.
* Each service method is a function of the oracle, the relevant `Date.now()` readings,
  and the current cache; it returns an `Outcome`: the settled result (`Except JsError`),
  the cache afterwards, and the list of URLs fetched during the call (so that
  "performs no network call" is expressible).
* Thrown JavaScript errors are modelled by `JsError` (the constructor name and the
  message).  `new Error(msg)` has name `"Error"`; a read of an undeclared or
  out-of-scope identifier raises a `ReferenceError`; incrementing a `const` binding
  raises a `TypeError`.
-/

/-- A JavaScript number as it occurs in the service: either `NaN` or a rational value.
(Infinities never arise on the verified code paths.) -/
inductive JsNum where
  | nan : JsNum
  | num : ℚ → JsNum
deriving Repr, DecidableEq

namespace JsNum

/-- The JavaScript `<` comparison: any comparison involving `NaN` is false. -/
def ltb : JsNum → JsNum → Bool
  | nan, _ => false
  | _, nan => false
  | num a, num b => decide (a < b)

/-- `Number.isInteger`: false on `NaN`, true exactly on integral values. -/
def isInt : JsNum → Bool
  | nan => false
  | num q => q.den == 1

/-- JavaScript multiplication; `NaN` is absorbing. -/
def mul : JsNum → JsNum → JsNum
  | num a, num b => num (a * b)
  | _, _ => nan

/-- `Math.floor`; `Math.floor NaN = NaN`. -/
def floorJs : JsNum → JsNum
  | nan => nan
  | num q => num (⌊q⌋ : ℤ)

/-- JavaScript addition; `NaN` is absorbing. -/
def add : JsNum → JsNum → JsNum
  | num a, num b => num (a + b)
  | _, _ => nan

end JsNum

/-- Decimal digits of `n` padded on the left with zeros to width `w`. -/
def padLeftZeros (w : ℕ) (n : ℕ) : String :=
  let s := toString n
  String.mk (List.replicate (w - s.length) '0') ++ s

/-- Drop trailing `'0'` characters. -/
def dropTrailingZeros (s : String) : String :=
  String.mk (s.toList.reverse.dropWhile (· = '0')).reverse

/-- Rendering of a JavaScript number by string interpolation (template literals such
as the cache key `comic-` followed by the id, and the fetched URL).  `NaN` prints as
`"NaN"`; integral values print as plain integers; other values print their (up to six
place) decimal expansion.  This matches JavaScript exactly on every number the
theorems below evaluate it at: integers, `NaN`, and `1.5`. -/
def JsNum.render : JsNum → String
  | JsNum.nan => "NaN"
  | JsNum.num q =>
      let sign := if q < 0 then "-" else ""
      let a := |q|
      let ip : ℕ := a.num.toNat / a.den
      let scaled : ℕ := a.num.toNat % a.den * 1000000 / a.den
      if scaled = 0 then sign ++ toString ip
      else sign ++ toString ip ++ "." ++ dropTrailingZeros (padLeftZeros 6 scaled)

/-- The raw JSON payload the provider returns for a comic (`info.0.json`).
`transcript` is `none` when the field is absent. -/
structure RawComic where
  num : JsNum
  title : String
  img : String
  alt : String
  transcript : Option String
  year : String
  month : String
  day : String
  safe_title : String
deriving Repr, DecidableEq

/-- The internal Comic shape produced by `processComic`. -/
structure Comic where
  id : JsNum
  title : String
  img : String
  alt : String
  transcript : String
  year : String
  month : String
  day : String
  safe_title : String
deriving Repr, DecidableEq

/-- `XKCDService.processComic`: renames `num` to `id` and defaults a missing
`transcript` to `''` (the JavaScript `comic.transcript || ''`; an absent field and an
empty string both yield `''`). -/
def processComic (c : RawComic) : Comic :=
  { id := c.num
    title := c.title
    img := c.img
    alt := c.alt
    transcript := c.transcript.getD ""
    year := c.year
    month := c.month
    day := c.day
    safe_title := c.safe_title }

/-- A cache entry as stored by the service: `\x7b data, timestamp \x7d`. -/
structure CacheEntry where
  data : Comic
  timestamp : ℕ
deriving Repr, DecidableEq

/-- The service's `Map` cache: an insertion-ordered association list from string keys
to entries. -/
abbrev Cache : Type := List (String × CacheEntry)

/-- `Map.prototype.get`. -/
def cacheGet (c : Cache) (k : String) : Option CacheEntry :=
  (List.find? (fun p => p.1 = k) c).map Prod.snd

/-- `Map.prototype.set`: overwrites in place when the key is present (keeping its
insertion position, as a JavaScript `Map` does), otherwise appends. -/
def cacheSet (c : Cache) (k : String) (e : CacheEntry) : Cache :=
  if List.any c (fun p => p.1 = k) then
    List.map (fun p => if p.1 = k then (k, e) else p) c
  else c ++ [(k, e)]

/-- The keys currently present in the cache, in insertion order. -/
def cacheKeys (c : Cache) : List String :=
  List.map Prod.fst c

/-- A thrown JavaScript error: constructor name and message.  `new Error(msg)` has
name `"Error"`. -/
structure JsError where
  name : String
  message : String
deriving Repr, DecidableEq

/-- The outcome of `fetch(url)`: either the promise resolves with a `Response`
(any HTTP status; the body decodes to `body`), or it rejects with a network-level
failure. -/
inductive FetchOutcome where
  | response (status : ℕ) (statusText : String) (body : RawComic)
  | reject (message : String)
deriving Repr, DecidableEq

/-- `Response.ok` in node-fetch: status in `[200, 300)`. -/
def FetchOutcome.ok : FetchOutcome → Bool
  | FetchOutcome.response status _ _ => decide (200 ≤ status) && decide (status < 300)
  | FetchOutcome.reject _ => false

/-- The network, as an oracle from URL to outcome. -/
abbrev Fetch : Type := String → FetchOutcome

deriving instance DecidableEq for Except

/-- The observable outcome of one service-method call: the settled value or error,
the cache after the call, and the URLs fetched during the call, in order. -/
structure Outcome (α : Type) where
  result : Except JsError α
  cache : Cache
  fetched : List String
deriving Repr, DecidableEq

/-- `this.baseUrl`. -/
def baseUrl : String := "https://xkcd.com"

/-- `this.cacheTimeout`: five minutes in milliseconds. -/
def cacheTimeout : ℕ := 5 * 60 * 1000

/-- The URL `getLatest` fetches. -/
def latestUrl : String := baseUrl ++ "/info.0.json"

/-- `XKCDService.getLatest`, embedded from the source.

`tCheck` is the `Date.now()` read in the freshness test and `tStore` the one stored
with a fresh entry.  A cached entry is served when
`Date.now() - cached.timestamp < this.cacheTimeout`; in JavaScript a clock that went
backwards gives a negative difference (still `< cacheTimeout`), and truncated `ℕ`
subtraction gives `0`, so the boolean agrees.  On a fetch whose response is not `ok`,
the error `HTTP <status>: <statusText>` is thrown inside the `try` and rethrown as
`Failed to fetch latest comic: ...`; a rejected fetch is wrapped the same way.  Only
on a 2xx response is the comic processed, stored under `"latest"`, and returned. -/
def getLatest (oracle : Fetch) (tCheck tStore : ℕ) (cache : Cache) : Outcome Comic :=
  match cacheGet cache "latest" with
  | some cached =>
      if tCheck - cached.timestamp < cacheTimeout then
        { result := Except.ok cached.data, cache := cache, fetched := [] }
      else getLatestFetch oracle tStore cache
  | none => getLatestFetch oracle tStore cache
where
  /-- The fetch-and-store path of `getLatest` (the `try` block). -/
  getLatestFetch (oracle : Fetch) (tStore : ℕ) (cache : Cache) : Outcome Comic :=
    match oracle latestUrl with
    | FetchOutcome.reject msg =>
        { result := Except.error ⟨"Error", "Failed to fetch latest comic: " ++ msg⟩
          cache := cache
          fetched := [latestUrl] }
    | FetchOutcome.response status statusText body =>
        if 200 ≤ status ∧ status < 300 then
          let pc := processComic body
          { result := Except.ok pc
            cache := cacheSet cache "latest" ⟨pc, tStore⟩
            fetched := [latestUrl] }
        else
          { result := Except.error ⟨"Error",
              "Failed to fetch latest comic: HTTP " ++ toString status ++ ": " ++ statusText⟩
            cache := cache
            fetched := [latestUrl] }

example :
    (getLatest (fun _ => FetchOutcome.response 200 "OK"
        ⟨JsNum.num 100, "t", "i", "a", none, "2024", "1", "2", "t"⟩) 0 0 []).result =
      Except.ok ⟨JsNum.num 100, "t", "i", "a", "", "2024", "1", "2", "t"⟩ := by
  decide

/-- The URL `getById` fetches for a given id (template literal
`this.baseUrl`/`id`/info.0.json). -/
def comicUrl (id : JsNum) : String := baseUrl ++ "/" ++ id.render ++ "/info.0.json"

/-- A value a settled `getById` call can produce: the processed Comic on the fetch
path, or, on a cache hit, the stored entry object itself — the source's hit path is
`if (cachedComic) \x7b return cachedComic; \x7d`, which returns the
`\x7b data, timestamp \x7d` wrapper, not `cachedComic.data`. -/
inductive ServiceValue where
  | comic (c : Comic)
  | entry (e : CacheEntry)
deriving Repr, DecidableEq

/-- `XKCDService.getById`, embedded from the source.

* The validation is literally `if (id < 1)` — a JavaScript `<`, so `NaN` and any
  non-integer `≥ 1` pass it — and it throws a plain `new Error('Invalid comic ID')`.
* On a cache hit the stored entry object is returned as-is (see `ServiceValue`).
* On a miss, `fetch` runs inside a `try` block; a 404 status throws
  `Comic not found` and any other non-ok status throws `HTTP <status>: <statusText>`,
  both caught and rethrown as `Failed to getByID <message>`; a rejected fetch is
  wrapped the same way.
* On a 2xx response the `try` block ends, and the next statement,
  `const comic = await response.json()`, reads `response` — but `response` was
  declared with `const` inside the `try` block and is out of scope here, so the call
  raises `ReferenceError: response is not defined` before the comic is processed,
  cached or returned.  No reachable path ever writes to the cache. -/
def getById (oracle : Fetch) (cache : Cache) (id : JsNum) : Outcome ServiceValue :=
  if JsNum.ltb id (JsNum.num 1) then
    { result := Except.error ⟨"Error", "Invalid comic ID"⟩, cache := cache, fetched := [] }
  else
    match cacheGet cache ("comic-" ++ id.render) with
    | some cachedComic =>
        { result := Except.ok (ServiceValue.entry cachedComic), cache := cache, fetched := [] }
    | none =>
        match oracle (comicUrl id) with
        | FetchOutcome.reject msg =>
            { result := Except.error ⟨"Error", "Failed to getByID " ++ msg⟩
              cache := cache
              fetched := [comicUrl id] }
        | FetchOutcome.response status statusText _ =>
            if status = 404 then
              { result := Except.error ⟨"Error", "Failed to getByID Comic not found"⟩
                cache := cache
                fetched := [comicUrl id] }
            else if ¬ (200 ≤ status ∧ status < 300) then
              { result := Except.error ⟨"Error",
                  "Failed to getByID HTTP " ++ toString status ++ ": " ++ statusText⟩
                cache := cache
                fetched := [comicUrl id] }
            else
              { result := Except.error ⟨"ReferenceError", "response is not defined"⟩
                cache := cache
                fetched := [comicUrl id] }

/-- `XKCDService.getRandom`, embedded from the source.

The first statement is `const latestID = await this.getLatest().id`: `getLatest()`
is invoked (its fetch and possible `"latest"` store happen), but `.id` is read from
the Promise object itself, which has no such property, so `latestID` is `undefined`
(the embedding runs the floating promise to completion; none of its effects are
observed by the rest of the call, and its rejection, if any, is unobserved here).
Then `Math.random() * latestID` converts `undefined` to `NaN`, so
`randomID = Math.floor(NaN) + 1 = NaN` whatever `Math.random()` returned, and
`getById(NaN)` is invoked.  Any error from `getById` is rethrown as
`Failed to fetch random comic: <message>`. -/
def getRandom (oracle : Fetch) (tCheck tStore : ℕ) (cache : Cache) (rand : ℚ) :
    Outcome ServiceValue :=
  let latest := getLatest oracle tCheck tStore cache
  let randomID := JsNum.add (JsNum.floorJs (JsNum.mul (JsNum.num rand) JsNum.nan)) (JsNum.num 1)
  let byId := getById oracle latest.cache randomID
  match byId.result with
  | Except.ok v =>
      { result := Except.ok v, cache := byId.cache, fetched := latest.fetched ++ byId.fetched }
  | Except.error e =>
      { result := Except.error ⟨"Error", "Failed to fetch random comic: " ++ e.message⟩
        cache := byId.cache
        fetched := latest.fetched ++ byId.fetched }

/-- `XKCDService.recentComics`, embedded from the source.  Its first statement,
`Arrays.from(this.cache)`, reads the identifier `Arrays`, which is declared nowhere
(the JavaScript builtin is `Array`), so every call raises
`ReferenceError: Arrays is not defined` before anything else runs.  The remainder of
the function is unreachable — and itself reads `maxIterations` outside the block that
declares it, reads `this.cache.length` (always `undefined` on a `Map`), and indexes
the `Map` with `this.cache[i]`. -/
def recentComics (_cache : Cache) : Except JsError (List Comic) :=
  Except.error ⟨"ReferenceError", "Arrays is not defined"⟩

/-- JavaScript `String.prototype.includes` on these strings (all the strings involved
are plain ASCII, where code-unit and character counts agree). -/
def jsIncludes (s sub : String) : Bool :=
  (List.range (s.toList.length + 1)).any (fun i => sub.toList.isPrefixOf (List.drop i s.toList))

/-- The pagination object of a search response.  `totalPages` is
`Math.ceil(total / limit)`, a JavaScript number. -/
structure Pagination where
  page : ℚ
  limit : ℚ
  totalPages : JsNum
deriving Repr, DecidableEq

/-- The object a successful `search` call returns. -/
structure SearchResult where
  query : String
  results : List Comic
  total : ℚ
  pagination : Pagination
deriving Repr, DecidableEq

/-- `XKCDService.search`, embedded from the source.

* The length check runs first, before the cache or the network is touched; the
  thrown `Query must be between 1 and 100 characters` is caught by the surrounding
  `try` and rethrown as `Failed to search <message>` — a plain `Error`.
* `const latestID = await this.getLatest().id` invokes `getLatest()` for its effects
  (as in `getRandom`, the `.id` of the Promise is `undefined` and the value is unused;
  `offset` is computed from `page`/`limit` and also unused).
* `this.recentComics()` is then called outside any `try`, so its
  `ReferenceError: Arrays is not defined` propagates out of `search`.
* The remaining code is unreachable; it is still embedded faithfully: had
  `recentComics` returned a list, the first title/transcript substring match would
  run `total++` — but `total` is declared `const`, so that raises
  `TypeError: Assignment to constant variable.`; with no match at all, `results`
  stays `[]` and `total` stays `0`, and `Math.ceil(0 / limit)` is `NaN` when
  `limit = 0` (JavaScript `0/0`) and `0` otherwise. -/
def search (oracle : Fetch) (tCheck tStore : ℕ) (cache : Cache) (query : String)
    (page limit : ℚ) : Outcome SearchResult :=
  if query.length < 1 ∨ query.length > 100 then
    { result := Except.error
        ⟨"Error", "Failed to search Query must be between 1 and 100 characters"⟩
      cache := cache
      fetched := [] }
  else
    let latest := getLatest oracle tCheck tStore cache
    match recentComics latest.cache with
    | Except.error e =>
        { result := Except.error e, cache := latest.cache, fetched := latest.fetched }
    | Except.ok comics =>
        if comics.any (fun c => jsIncludes c.title query || jsIncludes c.transcript query) then
          { result := Except.error ⟨"TypeError", "Assignment to constant variable."⟩
            cache := latest.cache
            fetched := latest.fetched }
        else
          { result := Except.ok
              { query := query
                results := []
                total := 0
                pagination :=
                  { page := page
                    limit := limit
                    totalPages := if limit = 0 then JsNum.nan else JsNum.num 0 } }
            cache := latest.cache
            fetched := latest.fetched }

/-- The error object the central error handler (`src/middleware/errorHandler.js`)
inspects: its constructor/assigned `name`, the `message`, and the optional
`isOperational` / `statusCode` / `timestamp` / `details` fields.  For an error that
lacks them, `isOperational` is falsy and `details` is absent; `statusCode` and
`timestamp` are then never read, so their placeholder values are irrelevant. -/
structure ErrObject where
  name : String
  message : String
  isOperational : Bool
  statusCode : ℕ
  timestamp : String
  details : Option String
deriving Repr, DecidableEq

/-- An HTTP response produced by the error handler: status code and JSON body as an
ordered list of string fields (a field whose value is `undefined`, such as an absent
`details`, is omitted by `res.json`). -/
structure HttpResponse where
  status : ℕ
  body : List (String × String)
deriving Repr, DecidableEq

/-- The error objects the service itself throws are plain `Error` /
`ReferenceError` / `TypeError` instances: no `isOperational`, `statusCode`,
`timestamp` or `details` fields. -/
def serviceErrObject (e : JsError) : ErrObject :=
  { name := e.name, message := e.message, isOperational := false, statusCode := 0,
    timestamp := "", details := none }

/-- The central error-handling middleware, embedded from
`src/middleware/errorHandler.js`.  It dispatches on `err.name` (not on the message
text), then on `err.isOperational`; everything else falls through to the 500 branch,
whose body message is the literal string `'Error handler not implemented'`. -/
def errorHandler (err : ErrObject) : HttpResponse :=
  if err.name = "ValidationError" then
    { status := 400
      body := [("error", "Validation Error"), ("message", err.message)] ++
        (match err.details with | some d => [("details", d)] | none => []) }
  else if err.name = "ComicNotFound" then
    { status := 404
      body := [("error", "Comic not found"), ("message", "The requested comic does not exist")] }
  else if err.name = "InvalidComicID" then
    { status := 400
      body := [("error", "Invalid comic ID"), ("message", "Comic ID must be a positive integer")] }
  else if err.isOperational then
    { status := err.statusCode
      body := [("error", err.message), ("timestamp", err.timestamp)] }
  else
    { status := 500
      body := [("error", "Internal Server Error"), ("message", "Error handler not implemented")] }

/-! ## Cache lemmas -/

/-- Looking up the key just stored yields the stored entry. -/
theorem cacheGet_cacheSet_self (c : Cache) (k : String) (e : CacheEntry) :
    cacheGet (cacheSet c k e) k = some e := by
  induction c with
  | nil => simp [cacheGet, cacheSet]
  | cons p c ih =>
      by_cases h : p.1 = k
      · simp [cacheGet, cacheSet, h]
      · have hd : (decide (p.1 = k)) = false := decide_eq_false h
        simp only [cacheSet, List.any_cons, hd, Bool.false_or] at ih ⊢
        by_cases h2 : List.any c (fun p => decide (p.1 = k))
        · simp only [h2, if_true] at ih ⊢
          simpa [cacheGet, List.find?_cons, h] using ih
        · simp only [h2, if_false] at ih ⊢
          simpa [cacheGet, List.find?_cons, h] using ih

/-- `cacheSet` only overwrites in place or appends: the key list either stays the
same or grows by the new key at the end. -/
theorem cacheKeys_cacheSet (c : Cache) (k : String) (e : CacheEntry) :
    cacheKeys (cacheSet c k e) = cacheKeys c ∨
      cacheKeys (cacheSet c k e) = cacheKeys c ++ [k] := by
  unfold cacheSet
  by_cases h : List.any c (fun p => decide (p.1 = k))
  · left
    simp only [h, if_true, cacheKeys, List.map_map]
    refine List.map_congr_left (fun p _ => ?_)
    by_cases hp : p.1 = k
    · simp [Function.comp, hp]
    · simp [Function.comp, hp]
  · right
    simp [h, cacheKeys]

/-- No `cacheSet` ever removes a key. -/
theorem mem_cacheKeys_cacheSet (c : Cache) (k k' : String) (e : CacheEntry)
    (hk : k' ∈ cacheKeys c) : k' ∈ cacheKeys (cacheSet c k e) := by
  rcases cacheKeys_cacheSet c k e with h | h
  · rw [h]; exact hk
  · rw [h]; exact List.mem_append_left _ hk

/-- `getLatest` never removes a cache key. -/
theorem mem_cacheKeys_getLatest (O : Fetch) (t1 t2 : ℕ) (c : Cache) (k : String)
    (hk : k ∈ cacheKeys c) : k ∈ cacheKeys (getLatest O t1 t2 c).cache := by
  unfold getLatest
  split
  · split
    · exact hk
    · unfold getLatest.getLatestFetch
      split
      · exact hk
      · split
        · exact mem_cacheKeys_cacheSet _ _ _ _ hk
        · exact hk
  · unfold getLatest.getLatestFetch
    split
    · exact hk
    · split
      · exact mem_cacheKeys_cacheSet _ _ _ _ hk
      · exact hk

/-- `getById` leaves the cache exactly as it was (no reachable path stores). -/
theorem getById_cache_eq (O : Fetch) (c : Cache) (id : JsNum) :
    (getById O c id).cache = c := by
  unfold getById
  split
  · rfl
  · split
    · rfl
    · split
      · rfl
      · split
        · rfl
        · split
          · rfl
          · rfl

/-- The cache after `getRandom` is the cache after its inner `getLatest`. -/
theorem getRandom_cache_eq (O : Fetch) (t1 t2 : ℕ) (c : Cache) (rand : ℚ) :
    (getRandom O t1 t2 c rand).cache = (getLatest O t1 t2 c).cache := by
  simp only [getRandom]
  split
  · exact getById_cache_eq _ _ _
  · exact getById_cache_eq _ _ _

/-- The cache after `search` is either untouched (validation failure) or the cache
after its inner `getLatest`. -/
theorem search_cache_eq (O : Fetch) (t1 t2 : ℕ) (c : Cache) (q : String) (p l : ℚ) :
    (search O t1 t2 c q p l).cache = c ∨
      (search O t1 t2 c q p l).cache = (getLatest O t1 t2 c).cache := by
  simp only [search]
  split
  · left; rfl
  · right
    split
    · rfl
    · split
      · rfl
      · rfl

/-! ## Concrete fixtures used by witnesses and counterexamples -/

/-- A sample raw provider payload (id 101). -/
def rawA : RawComic :=
  ⟨JsNum.num 101, "Alpha", "https://imgs.xkcd.com/a.png", "alt a", none, "2024", "1", "2", "Alpha"⟩

/-- A second, different sample raw payload (id 102). -/
def rawB : RawComic :=
  ⟨JsNum.num 102, "Beta", "https://imgs.xkcd.com/b.png", "alt b", some "words", "2024", "1", "9", "Beta"⟩

/-- A raw payload whose id is 1 (a provider whose latest comic is number 1). -/
def rawOne : RawComic :=
  ⟨JsNum.num 1, "Barrel", "https://imgs.xkcd.com/1.png", "alt 1", some "boy in barrel", "2006", "1", "1", "Barrel"⟩

/-- An oracle that answers every URL with HTTP 200 and the given payload. -/
def oracleOk (raw : RawComic) : Fetch := fun _ => FetchOutcome.response 200 "OK" raw

/-- An oracle that answers every URL with HTTP 404 (the body is never decoded on
that path; a placeholder is supplied). -/
def oracle404 : Fetch := fun _ => FetchOutcome.response 404 "Not Found" rawA

/-- An oracle that answers every URL with HTTP 500. -/
def oracle500 : Fetch := fun _ => FetchOutcome.response 500 "Internal Server Error" rawA

/-- An oracle whose fetches all reject at the network level. -/
def oracleDown : Fetch := fun _ => FetchOutcome.reject "network down"

/-- A provider whose latest comic is number 1 and which answers 404 for every other
URL (in particular for `/NaN/info.0.json`). -/
def oracleLatestOne : Fetch := fun u =>
  if u = latestUrl then FetchOutcome.response 200 "OK" rawOne
  else FetchOutcome.response 404 "Not Found" rawOne

/-! ## Claims -/

/-- C1: a `getLatest` call that fetches and caches stores the processed comic; a
second call within the 5-minute TTL window returns the cached Comic with no fetch
and no cache change; a call after the TTL window has elapsed fetches again and
returns the provider's (changed) new latest comic. -/
theorem getLatest_ttl_caching (O1 O2 : Fetch) (st1 st2 : String) (raw1 raw2 : RawComic)
    (c0 : Cache) (t0 t0' t1 t1' t2 t2' : ℕ)
    (hmiss : cacheGet c0 "latest" = none)
    (hO1 : O1 latestUrl = FetchOutcome.response 200 st1 raw1)
    (hO2 : O2 latestUrl = FetchOutcome.response 200 st2 raw2)
    (hfresh : t1 - t0' < cacheTimeout)
    (hstale : ¬ (t2 - t0' < cacheTimeout))
    (_hchanged : processComic raw2 ≠ processComic raw1) :
    (getLatest O1 t0 t0' c0).result = Except.ok (processComic raw1) ∧
    (getLatest O1 t0 t0' c0).cache = cacheSet c0 "latest" ⟨processComic raw1, t0'⟩ ∧
    getLatest O1 t1 t1' (getLatest O1 t0 t0' c0).cache =
      { result := Except.ok (processComic raw1)
        cache := (getLatest O1 t0 t0' c0).cache
        fetched := [] } ∧
    (getLatest O2 t2 t2' (getLatest O1 t0 t0' c0).cache).result =
      Except.ok (processComic raw2) ∧
    (getLatest O2 t2 t2' (getLatest O1 t0 t0' c0).cache).fetched = [latestUrl] := by
  have hfirst : getLatest O1 t0 t0' c0 =
      { result := Except.ok (processComic raw1)
        cache := cacheSet c0 "latest" ⟨processComic raw1, t0'⟩
        fetched := [latestUrl] } := by
    unfold getLatest
    rw [hmiss]
    unfold getLatest.getLatestFetch
    rw [hO1]
    norm_num
  have hget : cacheGet (cacheSet c0 "latest" ⟨processComic raw1, t0'⟩) "latest" =
      some ⟨processComic raw1, t0'⟩ := cacheGet_cacheSet_self _ _ _
  refine ⟨by rw [hfirst], by rw [hfirst], ?_, ?_, ?_⟩
  · simp only [hfirst]
    unfold getLatest
    rw [hget]
    simp [hfresh]
  · simp only [hfirst]
    unfold getLatest
    rw [hget]
    simp only [hstale, if_false]
    unfold getLatest.getLatestFetch
    rw [hO2]
    norm_num
  · simp only [hfirst]
    unfold getLatest
    rw [hget]
    simp only [hstale, if_false]
    unfold getLatest.getLatestFetch
    rw [hO2]
    norm_num

/-- C1 witness at concrete inputs: first call at time 0 caches; a second call at
time 1 (within the TTL) returns the cached comic with no fetch; a call at time
300000 (TTL elapsed) against a changed provider returns the new comic. -/
theorem getLatest_ttl_caching_witness :
    getLatest (oracleOk rawA) 1 1 (getLatest (oracleOk rawA) 0 0 []).cache =
      { result := Except.ok (processComic rawA)
        cache := (getLatest (oracleOk rawA) 0 0 []).cache
        fetched := [] } ∧
    (getLatest (oracleOk rawB) 300000 300000 (getLatest (oracleOk rawA) 0 0 []).cache).result =
      Except.ok (processComic rawB) ∧
    (getLatest (oracleOk rawB) 300000 300000 (getLatest (oracleOk rawA) 0 0 []).cache).fetched =
      [latestUrl] :=
  have h := getLatest_ttl_caching (oracleOk rawA) (oracleOk rawB) "OK" "OK" rawA rawB []
    0 0 1 1 300000 300000 rfl rfl rfl (by decide) (by decide) (by decide)
  ⟨h.2.2.1, h.2.2.2.1, h.2.2.2.2⟩

/-- The multiplication of any JavaScript number with `NaN` is `NaN`. -/
theorem JsNum.mul_nan (x : JsNum) : JsNum.mul x JsNum.nan = JsNum.nan := by
  cases x <;> rfl

/-- C2: the claim fails on the code.  `getById` only checks `id < 1` and throws a
plain `Error`, so: a non-integer id such as `1.5` (and likewise `NaN`) passes
validation and triggers a network fetch, contradicting "zero network calls"; and
even for `id = 0` the raised error is named `"Error"`, which the error handler does
not classify as `InvalidComicID` (it answers 500, not 400). -/
theorem getById_validation_gap :
    (JsNum.num (mkRat 3 2)).isInt = false ∧
    (getById (oracleOk rawA) [] (JsNum.num (mkRat 3 2))).fetched =
      ["https://xkcd.com/1.5/info.0.json"] ∧
    (getById (oracleOk rawA) [] JsNum.nan).fetched =
      ["https://xkcd.com/NaN/info.0.json"] ∧
    getById (oracleOk rawA) [] (JsNum.num 0) =
      { result := Except.error ⟨"Error", "Invalid comic ID"⟩, cache := [], fetched := [] } ∧
    (errorHandler (serviceErrObject ⟨"Error", "Invalid comic ID"⟩)).status = 500 :=
  ⟨by decide, by decide, by decide, by decide, by decide⟩

/-- C3: the claim's premise can never be established by the code.  For any id that
passes validation and misses the cache, a 200 response still ends in
`ReferenceError: response is not defined` (the `response` binding is scoped to the
`try` block), so the first call neither succeeds nor caches anything, and a second
call finds the cache in the same state and fetches again. -/
theorem getById_miss_referenceError (O : Fetch) (c : Cache) (id : JsNum) (st : String)
    (raw : RawComic)
    (hid : JsNum.ltb id (JsNum.num 1) = false)
    (hmiss : cacheGet c ("comic-" ++ id.render) = none)
    (hO : O (comicUrl id) = FetchOutcome.response 200 st raw) :
    getById O c id =
      { result := Except.error ⟨"ReferenceError", "response is not defined"⟩
        cache := c
        fetched := [comicUrl id] } ∧
    getById O (getById O c id).cache id = getById O c id := by
  have h1 : getById O c id =
      { result := Except.error ⟨"ReferenceError", "response is not defined"⟩
        cache := c
        fetched := [comicUrl id] } := by
    unfold getById
    simp [hid, hmiss, hO]
  refine ⟨h1, ?_⟩
  rw [h1]
  exact h1

/-- C3 witness: `getById(1)` on an empty cache with a provider that answers 200
raises the `ReferenceError` and leaves the cache empty. -/
theorem getById_miss_referenceError_witness :
    getById (oracleOk rawA) [] (JsNum.num 1) =
      { result := Except.error ⟨"ReferenceError", "response is not defined"⟩
        cache := []
        fetched := [comicUrl (JsNum.num 1)] } :=
  (getById_miss_referenceError (oracleOk rawA) [] (JsNum.num 1) "OK" rawA rfl rfl rfl).1

/-- C4: the claim fails on the code.  A provider 404 for id 2 makes `getById` throw a
plain `Error` with message `Failed to getByID Comic not found`; the error handler
dispatches on `err.name`, which is `"Error"`, not `"ComicNotFound"`, so it answers
500, not 404.  A 500 response likewise yields a plain `Error` (there is no
`TransportError` classification anywhere). -/
theorem getById_provider_errors_unclassified :
    (getById oracle404 [] (JsNum.num 2)).result =
      Except.error ⟨"Error", "Failed to getByID Comic not found"⟩ ∧
    errorHandler (serviceErrObject ⟨"Error", "Failed to getByID Comic not found"⟩) =
      { status := 500
        body := [("error", "Internal Server Error"), ("message", "Error handler not implemented")] } ∧
    (errorHandler (serviceErrObject ⟨"Error", "Failed to getByID Comic not found"⟩)).status ≠ 404 ∧
    (getById oracle500 [] (JsNum.num 2)).result =
      Except.error ⟨"Error", "Failed to getByID HTTP 500: Internal Server Error"⟩ ∧
    (serviceErrObject ⟨"Error", "Failed to getByID HTTP 500: Internal Server Error"⟩).name ≠
      "TransportError" :=
  ⟨by decide, by decide, by decide, by decide, by decide⟩

/-- C5: the claim fails on the code.  Against a provider whose latest comic is
number 1 (so `latestId = 1`), `getRandom` never returns comic 1: the expression
`await this.getLatest().id` yields `undefined`, `randomID` is therefore `NaN` for
every value of `Math.random()`, and the call fetches `/NaN/info.0.json`, gets a 404
and rejects. -/
theorem getRandom_nan_id (rand : ℚ) (t1 t2 : ℕ) :
    getRandom oracleLatestOne t1 t2 [] rand =
      { result := Except.error
          ⟨"Error", "Failed to fetch random comic: Failed to getByID Comic not found"⟩
        cache := [("latest", ⟨processComic rawOne, t2⟩)]
        fetched := [latestUrl, comicUrl JsNum.nan] } := by
  have hr : ((JsNum.num rand).mul JsNum.nan).floorJs.add (JsNum.num 1) = JsNum.nan := by
    rw [JsNum.mul_nan]
    rfl
  simp only [getRandom, hr]
  rfl

/-- C6 counterexample: `search("")` does fail, but the failure is a plain `Error`
(name `"Error"`), not a `ValidationError`-class failure: the error-formatting layer
maps it to 500, not to a 400 Validation Error. -/
theorem search_invalid_query_not_validation_classified :
    (search (oracleOk rawA) 0 0 [] "" 1 10).result =
      Except.error ⟨"Error", "Failed to search Query must be between 1 and 100 characters"⟩ ∧
    (serviceErrObject
        ⟨"Error", "Failed to search Query must be between 1 and 100 characters"⟩).name ≠
      "ValidationError" ∧
    errorHandler (serviceErrObject
        ⟨"Error", "Failed to search Query must be between 1 and 100 characters"⟩) =
      { status := 500
        body := [("error", "Internal Server Error"), ("message", "Error handler not implemented")] } :=
  ⟨by decide, by decide, by decide⟩

/-- C6 as amended: for every query of length 0 or greater than 100, `search` fails
before reading the cache and before any network fetch (the cache is returned
untouched and no URL is fetched), but with a plain `Error` whose message is
`Failed to search Query must be between 1 and 100 characters` — not a
`ValidationError`-class failure. -/
theorem search_invalid_query_fails_before_io (O : Fetch) (t1 t2 : ℕ) (c : Cache)
    (q : String) (page limit : ℚ) (hq : q.length < 1 ∨ q.length > 100) :
    search O t1 t2 c q page limit =
      { result := Except.error
          ⟨"Error", "Failed to search Query must be between 1 and 100 characters"⟩
        cache := c
        fetched := [] } := by
  unfold search
  rw [if_pos hq]

/-- C6 amended-claim witness at the empty query. -/
theorem search_invalid_query_fails_before_io_witness :
    search (oracleOk rawA) 0 0 [] "" 1 10 =
      { result := Except.error
          ⟨"Error", "Failed to search Query must be between 1 and 100 characters"⟩
        cache := []
        fetched := [] } :=
  search_invalid_query_fails_before_io (oracleOk rawA) 0 0 [] "" 1 10 (Or.inl (by decide))

/-- C7: the claim fails on the code.  `search("xkcd", 2, 5)` on an empty cache does
not return the empty search result: `recentComics()` raises
`ReferenceError: Arrays is not defined` (for any provider behaviour), so the call
rejects instead of resolving. -/
theorem search_empty_cache_crashes (O : Fetch) (t1 t2 : ℕ) :
    (search O t1 t2 [] "xkcd" 2 5).result =
      Except.error ⟨"ReferenceError", "Arrays is not defined"⟩ ∧
    (search O t1 t2 [] "xkcd" 2 5).result ≠
      Except.ok { query := "xkcd", results := [], total := 0,
                  pagination := { page := 2, limit := 5, totalPages := JsNum.num 0 } } := by
  have h : (search O t1 t2 [] "xkcd" 2 5).result =
      Except.error ⟨"ReferenceError", "Arrays is not defined"⟩ := rfl
  refine ⟨h, ?_⟩
  rw [h]
  decide

/-- C8: no operation ever removes a cache entry — every key present before a call to
`getLatest`, `getById`, `getRandom` or `search` is still present afterwards. -/
theorem service_preserves_cache_keys (O : Fetch) (t1 t2 : ℕ) (c : Cache) (id : JsNum)
    (rand : ℚ) (q : String) (page limit : ℚ) (k : String) (hk : k ∈ cacheKeys c) :
    k ∈ cacheKeys (getLatest O t1 t2 c).cache ∧
    k ∈ cacheKeys (getById O c id).cache ∧
    k ∈ cacheKeys (getRandom O t1 t2 c rand).cache ∧
    k ∈ cacheKeys (search O t1 t2 c q page limit).cache := by
  refine ⟨mem_cacheKeys_getLatest O t1 t2 c k hk, ?_, ?_, ?_⟩
  · rw [getById_cache_eq]
    exact hk
  · rw [getRandom_cache_eq]
    exact mem_cacheKeys_getLatest O t1 t2 c k hk
  · rcases search_cache_eq O t1 t2 c q page limit with h | h
    · rw [h]; exact hk
    · rw [h]; exact mem_cacheKeys_getLatest O t1 t2 c k hk

/-- C8 witness: a pre-existing key `comic-7` survives each of the four operations. -/
theorem service_preserves_cache_keys_witness :
    "comic-7" ∈ cacheKeys (getLatest (oracleOk rawA) 0 0
        [("comic-7", ⟨processComic rawA, 0⟩)]).cache ∧
    "comic-7" ∈ cacheKeys (getById (oracleOk rawA)
        [("comic-7", ⟨processComic rawA, 0⟩)] (JsNum.num 7)).cache ∧
    "comic-7" ∈ cacheKeys (getRandom (oracleOk rawA) 0 0
        [("comic-7", ⟨processComic rawA, 0⟩)] 0).cache ∧
    "comic-7" ∈ cacheKeys (search (oracleOk rawA) 0 0
        [("comic-7", ⟨processComic rawA, 0⟩)] "xkcd" 1 10).cache :=
  service_preserves_cache_keys (oracleOk rawA) 0 0 [("comic-7", ⟨processComic rawA, 0⟩)]
    (JsNum.num 7) 0 "xkcd" 1 10 "comic-7" (by decide)

/-- C9: the claim fails on the code.  Every failure that is not named
`ValidationError`, `ComicNotFound` or `InvalidComicID` and is not flagged
operational is masked behind a fixed 500 response — but its message is the literal
`Error handler not implemented`, not `Something went wrong on our end` as the
handler's own comment (and the spec) state. -/
theorem errorHandler_default_masks_with_wrong_message (err : ErrObject)
    (h1 : err.name ≠ "ValidationError") (h2 : err.name ≠ "ComicNotFound")
    (h3 : err.name ≠ "InvalidComicID") (h4 : err.isOperational = false) :
    errorHandler err =
      { status := 500
        body := [("error", "Internal Server Error"), ("message", "Error handler not implemented")] } ∧
    (errorHandler err).body ≠
      [("error", "Internal Server Error"), ("message", "Something went wrong on our end")] := by
  have h : errorHandler err =
      { status := 500
        body := [("error", "Internal Server Error"),
                 ("message", "Error handler not implemented")] } := by
    unfold errorHandler
    rw [if_neg h1, if_neg h2, if_neg h3]
    simp [h4]
  refine ⟨h, ?_⟩
  rw [h]
  decide

/-- C9 witness: a plain `Error` (name `"Error"`, not operational) gets the fixed 500
response with the unimplemented-handler message. -/
theorem errorHandler_default_masks_with_wrong_message_witness :
    errorHandler ⟨"Error", "boom", false, 0, "", none⟩ =
      { status := 500
        body := [("error", "Internal Server Error"), ("message", "Error handler not implemented")] } :=
  (errorHandler_default_masks_with_wrong_message ⟨"Error", "boom", false, 0, "", none⟩
    (by decide) (by decide) (by decide) rfl).1

/-- C10: when the fetch inside `getLatest` fails (network rejection or any non-2xx
response) and the call actually reaches the fetch (no fresh `"latest"` entry), the
call rejects with a wrapped `Error` and the cache is left completely unchanged —
no entry added, and any stale `"latest"` entry keeps its data and timestamp. -/
theorem getLatest_failed_fetch_preserves_cache (O : Fetch) (t1 t2 : ℕ) (c : Cache)
    (hfail : (O latestUrl).ok = false)
    (hstale : ∀ e, cacheGet c "latest" = some e → cacheTimeout ≤ t1 - e.timestamp) :
    (∃ msg, (getLatest O t1 t2 c).result = Except.error ⟨"Error", msg⟩) ∧
    (getLatest O t1 t2 c).cache = c := by
  have hfetch : (∃ msg, (getLatest.getLatestFetch O t2 c).result = Except.error ⟨"Error", msg⟩) ∧
      (getLatest.getLatestFetch O t2 c).cache = c := by
    unfold getLatest.getLatestFetch
    cases hO : O latestUrl with
    | reject m => exact ⟨⟨"Failed to fetch latest comic: " ++ m, rfl⟩, rfl⟩
    | response s st b =>
        have hnot : ¬ (200 ≤ s ∧ s < 300) := by
          intro hs
          rw [hO] at hfail
          simp [FetchOutcome.ok, hs.1, hs.2] at hfail
        simp only [hnot, if_false]
        exact ⟨⟨"Failed to fetch latest comic: HTTP " ++ toString s ++ ": " ++ st, rfl⟩, trivial⟩
  unfold getLatest
  cases hget : cacheGet c "latest" with
  | none => exact hfetch
  | some e =>
      have hnf : ¬ (t1 - e.timestamp < cacheTimeout) := not_lt.mpr (hstale e hget)
      simp only [hnf, if_false]
      exact hfetch

/-- C10 witness: with the network down and an empty cache, `getLatest` rejects and
the cache stays empty. -/
theorem getLatest_failed_fetch_preserves_cache_witness :
    (∃ msg, (getLatest oracleDown 0 0 []).result = Except.error ⟨"Error", msg⟩) ∧
    (getLatest oracleDown 0 0 []).cache = [] :=
  getLatest_failed_fetch_preserves_cache oracleDown 0 0 [] rfl
    (by intro e h; simp [cacheGet] at h)
